import Mathlib

/-!
A shallow embedding of the core analysis-and-decision pipeline of the
trading-bot repository, together with theorems settling the spec's claims.

Prices, amounts and confidences are modelled as rationals (`ℚ`); Python
dictionaries become structures or association lists; the external numeric
backend (the `ta` library), the fitted scikit-learn model, and the random
draws of the simulator are modelled as explicit oracle parameters, with a
raised Python exception represented as `Except.error`.
-/

/-- One OHLCV candle, as produced by the simulator / broker API
(`pocket_option.py`).  The Python dict key `"open"` is a Lean keyword, so
the open price is the field `op`. -/
structure Candle where
  timestamp : Int
  op : ℚ
  high : ℚ
  low : ℚ
  close : ℚ
  volume : Int
  asset : String
  timeframe : Int
  deriving Repr, DecidableEq

/-- Candle storage step of `TradingBot.handle_candle` (trading_bot.py,
lines 55-66): if the series is non-empty and its head has the same
timestamp as the incoming candle, the head is replaced in place; otherwise
the candle is prepended (`insert(0, candle)`); the series is then truncated
to its first 200 entries (`[:200]`). -/
def store_candle (series : List Candle) (candle : Candle) : List Candle :=
  let series' :=
    match series with
    | head :: tail =>
        if head.timestamp = candle.timestamp then candle :: tail
        else candle :: head :: tail
    | [] => [candle]
  series'.take 200

/-- The newest-first ordering invariant: timestamps are non-increasing
from index 0. -/
def newestFirst (series : List Candle) : Prop :=
  series.Chain' (fun a b => b.timestamp ≤ a.timestamp)

instance (series : List Candle) : Decidable (newestFirst series) :=
  inferInstanceAs
    (Decidable (List.Chain' (fun a b : Candle => b.timestamp ≤ a.timestamp) series))

/-- `PocketOptionClient.place_trade` in simulation mode
(pocket_option.py, lines 77-94): the stake is debited up front; after the
settlement delay a win is drawn (`random.random() < 0.65`, modelled as the
input `is_win`); on a win the stake plus profit `amount * 0.85` is
credited back.  Returns the new balance and the resolved outcome. -/
def place_trade_sim (balance : ℚ) (amount : ℚ) (is_win : Bool) : ℚ × String :=
  let debited := balance - amount
  if is_win then
    let profit := amount * 0.85
    (debited + amount + profit, "WIN")
  else
    (debited, "LOSS")

/-- `TradingAgent.get_trade_amount` (agent.py, lines 214-228).  The Python
default `base_pct=0.02` is passed explicitly at every call site here. -/
def get_trade_amount (balance : ℚ) (confidence : ℚ) (base_pct : ℚ) : ℚ :=
  let pct :=
    if confidence < 0.65 then base_pct * 0.5
    else if confidence < 0.75 then base_pct
    else base_pct * 1.5
  let amount := balance * pct
  max 1 (min amount (balance * 0.05))

/-- `TradingAgent.determine_expiration` (agent.py, lines 203-212). -/
def determine_expiration (volatility : ℚ) (pattern_strength : ℚ) : Int :=
  let base_exp : Int :=
    if volatility > 0.002 then 60
    else if volatility > 0.001 then 120
    else 300
  if pattern_strength > 0.8 then base_exp else base_exp * 2

/-- An entry of the list returned by `CandlestickAnalyzer._detect_patterns`
(candlestick.py): the dict `{"name", "type", "signal", "strength"}`. -/
structure PatternDet where
  name : String
  type : String
  signal : String
  strength : ℚ
  deriving Repr, DecidableEq

/-- An entry of the list returned by `CandlestickAnalyzer.analyze_candles`
(candlestick.py): the dict `{"pattern", "type", "signal", "strength",
"timestamp"}`. -/
structure Pattern where
  pattern : String
  type : String
  signal : String
  strength : ℚ
  timestamp : Int
  deriving Repr, DecidableEq

/-- `CandlestickAnalyzer._detect_patterns` (candlestick.py, lines 33-59):
two-candle engulfing detection (an `if/elif` pair) followed by an
independent doji check on the current candle `c1`. -/
def detect_patterns (c1 : Candle) (c2 : Candle) : List PatternDet :=
  let body1 := |c1.close - c1.op|
  let body2 := |c2.close - c2.op|
  let is_bull1 := c1.close > c1.op
  let is_bear1 := c1.close < c1.op
  let is_bull2 := c2.close > c2.op
  let is_bear2 := c2.close < c2.op
  let engulfing : List PatternDet :=
    if is_bear2 ∧ is_bull1 ∧ body1 > 1.2 * body2 ∧ c1.op < c2.close ∧ c1.close > c2.op then
      [⟨"bullish_engulfing", "reversal", "CALL", 0.85⟩]
    else if is_bull2 ∧ is_bear1 ∧ body1 > 1.2 * body2 ∧ c1.op > c2.close ∧ c1.close < c2.op then
      [⟨"bearish_engulfing", "reversal", "PUT", 0.85⟩]
    else []
  let range1 := c1.high - c1.low
  let doji : List PatternDet :=
    if body1 < 0.1 * range1 ∧ range1 > 0.0001 then
      [⟨"doji", "continuation", "neutral", 0.5⟩]
    else []
  engulfing ++ doji

/-- `CandlestickAnalyzer.analyze_candles` (candlestick.py, lines 10-31):
fewer than 3 candles yields no patterns; otherwise the pairs
`(candles[i], candles[i+1])` for `i in range(min(5, len(candles) - 2))`
are scanned and each detection is tagged with the current candle's
timestamp. -/
def analyze_candles (candles : List Candle) : List Pattern :=
  if candles.length < 3 then []
  else
    (List.range (min 5 (candles.length - 2))).flatMap fun i =>
      match candles.drop i with
      | c1 :: c2 :: _ =>
          (detect_patterns c1 c2).map fun p =>
            ⟨p.name, p.type, p.signal, p.strength, c1.timestamp⟩
      | _ => []

/-- `CandlestickAnalyzer.get_pattern_strength` (candlestick.py,
lines 81-90). -/
def get_pattern_strength (patterns : List Pattern) : ℚ :=
  if patterns = [] then 0.5
  else
    let call_score := ((patterns.filter (fun p => p.signal = "CALL")).map Pattern.strength).sum
    let put_score := ((patterns.filter (fun p => p.signal = "PUT")).map Pattern.strength).sum
    let total := call_score + put_score
    if total > 0 then max call_score put_score / total else 0.5

/-- The `{"value", "signal"}` dict built by
`TechnicalIndicators._analyze_rsi` (indicators.py). -/
structure RSIInfo where
  value : ℚ
  signal : String
  deriving Repr, DecidableEq

/-- The `{"macd_line", "signal_line", "histogram", "trend"}` dict built by
`TechnicalIndicators._analyze_macd` (indicators.py). -/
structure MACDInfo where
  macd_line : ℚ
  signal_line : ℚ
  histogram : ℚ
  trend : String
  deriving Repr, DecidableEq

/-- The dict returned by `TechnicalIndicators.calculate_all`: either empty
(all fields `none`) or carrying the `"rsi"`, `"macd"` and `"atr"` keys. -/
structure Snapshot where
  rsi : Option RSIInfo
  macd : Option MACDInfo
  atr : Option ℚ
  deriving Repr, DecidableEq

/-- The empty dict `{}`. -/
def Snapshot.empty : Snapshot := ⟨none, none, none⟩

/-- Python truthiness of the snapshot dict: `{}` is falsy, any dict with a
key is truthy.  `calculate_all` only ever produces `{}` or a dict with all
three keys. -/
def Snapshot.isEmpty (s : Snapshot) : Bool :=
  s.rsi.isNone && s.macd.isNone && s.atr.isNone

/-- `TechnicalIndicators._analyze_rsi` (indicators.py, lines 48-55). -/
def analyze_rsi (rsi_value : ℚ) : RSIInfo :=
  let signal :=
    if rsi_value > 70 then "overbought"
    else if rsi_value < 30 then "oversold"
    else "neutral"
  ⟨rsi_value, signal⟩

/-- `TechnicalIndicators._analyze_macd` (indicators.py, lines 57-69). -/
def analyze_macd (macd_line : ℚ) (signal_line : ℚ) (hist : ℚ) : MACDInfo :=
  let trend :=
    if hist > 0 ∧ macd_line > signal_line then "bullish"
    else if hist < 0 ∧ macd_line < signal_line then "bearish"
    else "neutral"
  ⟨macd_line, signal_line, hist, trend⟩

/-- The numeric core of the `ta` library, an external dependency: each
field stands for one indicator-series construction plus the final
`.iloc[-1]` read in `calculate_all`, and `Except.error` stands for a
raised exception.  `rsi` and `macd` receive the closes; `atr` receives
highs, lows and closes in that order. -/
structure TABackend where
  rsi : List ℚ → Except String ℚ
  macd : List ℚ → Except String (ℚ × ℚ × ℚ)
  atr : List ℚ → List ℚ → List ℚ → Except String ℚ

/-- `TechnicalIndicators.calculate_all` (indicators.py, lines 16-46).
`ta_available` is the module-level `TA_AVAILABLE` flag.  Note the source's
`candles_df = reversed(candles)` yields a one-shot iterator: the closes
comprehension consumes it, so the highs and lows comprehensions produce
empty arrays.  The function body has no `try/except`, so a backend
failure propagates as `Except.error`. -/
def calculate_all (ta_available : Bool) (ta : TABackend) (candles : List Candle) :
    Except String Snapshot :=
  if candles.length < 30 ∨ ta_available = false then .ok Snapshot.empty
  else do
    let closes := candles.reverse.map Candle.close
    let highs : List ℚ := []
    let lows : List ℚ := []
    let rsi_value ← ta.rsi closes
    let (macd_line, signal_line, hist) ← ta.macd closes
    let atr_value ← ta.atr highs lows closes
    .ok ⟨some (analyze_rsi rsi_value), some (analyze_macd macd_line signal_line hist),
         some atr_value⟩

/-- The `{"support", "resistance"}` level dicts (levels.py). -/
structure Level where
  price : ℚ
  touches : Nat
  strength : ℚ
  distance : ℚ
  deriving Repr, DecidableEq

/-- Result of `LevelAnalyzer.find_support_resistance`. -/
structure Levels where
  support : List Level
  resistance : List Level
  deriving Repr, DecidableEq

/-- The decision context dict built by `TradingBot.handle_candle` and
consumed by `TradingAgent` (agent.py). -/
structure Context where
  asset : String
  timeframe : Int
  patterns : List Pattern
  levels : Levels
  indicators : Snapshot
  balance : ℚ
  candles : List Candle

/-- `TradingAgent._extract_features` (agent.py, lines 87-124): `None` when
the indicators dict or the candle list is empty (Python falsiness),
otherwise the six-feature vector with the source's dict-lookup
defaults. -/
def extract_features (context : Context) : Option (List ℚ) :=
  if context.indicators.isEmpty ∨ context.candles = [] then none
  else
    let rsi_val := match context.indicators.rsi with
      | some r => r.value
      | none => 50
    let macd_hist := match context.indicators.macd with
      | some m => m.histogram
      | none => 0
    let atr_val := match context.indicators.atr with
      | some a => a
      | none => 0.001
    let body_to_atr := match context.candles with
      | c :: _ => |c.close - c.op| / atr_val
      | [] => 0
    let bullish := ((context.patterns.filter (fun p => p.signal = "CALL")).map
      Pattern.strength).sum
    let bearish := ((context.patterns.filter (fun p => p.signal = "PUT")).map
      Pattern.strength).sum
    some [rsi_val, macd_hist, atr_val, body_to_atr, bullish, bearish]

/-- `TradingAgent._heuristic_score` (agent.py, lines 127-145): the top
three patterns contribute `strength * 1.5` to the matching side, then an
oversold RSI adds 0.5 to the call score and an overbought RSI 0.5 to the
put score. -/
def heuristic_score (context : Context) : ℚ × ℚ :=
  let pattern_scores :=
    (context.patterns.take 3).foldl
      (fun (scores : ℚ × ℚ) p =>
        if p.signal = "CALL" then (scores.1 + p.strength * 1.5, scores.2)
        else if p.signal = "PUT" then (scores.1, scores.2 + p.strength * 1.5)
        else scores)
      (0, 0)
  match context.indicators.rsi with
  | some r =>
      if r.signal = "oversold" then (pattern_scores.1 + 0.5, pattern_scores.2)
      else if r.signal = "overbought" then (pattern_scores.1, pattern_scores.2 + 0.5)
      else pattern_scores
  | none => pattern_scores

/-- The directive dict returned by `TradingAgent.get_trade_decision`. -/
structure Directive where
  direction : String
  confidence : ℚ
  deriving Repr, DecidableEq

/-- `TradingAgent.get_trade_decision` (agent.py, lines 147-200).
`predict` stands for the fitted scaler+classifier pipeline
(`scaler.transform` followed by `predict_proba`, an external model), with
`Except.error` a raised exception — which the source catches, falling back
to an ML confidence of 0.5.  When untrained or without features the ML
confidence is likewise 0.5. -/
def get_trade_decision (predict : List ℚ → Except String ℚ) (is_trained : Bool)
    (context : Context) : Directive :=
  let features := extract_features context
  let scores := heuristic_score context
  let call_score := scores.1
  let put_score := scores.2
  let ml_confidence : ℚ :=
    if is_trained then
      match features with
      | some f =>
          match predict f with
          | .ok p => p
          | .error _ => 0.5
      | none => 0.5
    else 0.5
  let total := call_score + put_score
  if total > 0.5 then
    let final_direction := if call_score > put_score then "CALL" else "PUT"
    let heuristic_conf := if call_score > put_score then call_score / total else put_score / total
    let final_confidence := heuristic_conf * 0.4 + ml_confidence * 0.6
    ⟨final_direction, max 0.5 (min final_confidence 0.95)⟩
  else
    ⟨"HOLD", max 0.5 (min 0.5 0.95)⟩

/-- One completed-trade experience dict appended by
`TradingBot.handle_candle` and consumed by `TradingAgent`
(agent.py). -/
structure Experience where
  features : Option (List ℚ)
  outcome : String
  confidence : ℚ
  deriving Repr, DecidableEq

/-- Python truthiness of `exp.get("features")`: missing/`None` and the
empty list are falsy. -/
def featTruthy (e : Experience) : Bool :=
  match e.features with
  | some f => decide (f ≠ [])
  | none => false

/-- The mutable training state of `TradingAgent`
(`is_trained` and `experience_buffer`). -/
structure AgentState where
  is_trained : Bool
  experience_buffer : List Experience
  deriving Repr, DecidableEq

/-- `TradingAgent.retrain_if_needed` (agent.py, lines 51-84) with
`min_training_samples = 50`.  `fit` stands for the
`np.array` / `scaler.fit_transform` / `direction_model.fit` calls inside
the `try` block (external numeric code); `Except.error` is a raised
exception, which the source catches, leaving the state untouched.  Only
after a successful fit is `is_trained` set and the buffer cleared
(`_save_models` catches its own exceptions, so nothing can fail between
the fit and the clearing). -/
def retrain_if_needed (fit : Except String Unit) (s : AgentState) : AgentState :=
  if s.experience_buffer.length < 50 then s
  else
    let X_raw := (s.experience_buffer.filter featTruthy).filterMap Experience.features
    let Y := (s.experience_buffer.filter featTruthy).map
      (fun e => if e.outcome = "WIN" then (1 : Nat) else 0)
    if X_raw = [] ∨ X_raw.length ≠ Y.length then s
    else
      match fit with
      | .ok _ => { is_trained := true, experience_buffer := [] }
      | .error _ => s

/-- The random draws consumed by one candle synthesis in
`PocketOptionClient._candle_simulator` (pocket_option.py): the close/open
jitters, the high/low extensions and the volume. -/
structure SimDraws where
  change : ℚ
  op_change : ℚ
  hi_change : ℚ
  lo_change : ℚ
  volume : Int
  deriving Repr, DecidableEq

/-- Python's `round(x, 5)` (modelled with round-half-up on rationals;
Python uses round-half-to-even, which differs only on exact ties). -/
def round5 (x : ℚ) : ℚ := (round (x * 100000) : ℤ) / 100000

/-- Python's `str.split(sep)` for a one-character separator, on the
character list of the string: `"a_b_c"` splits into `["a", "b", "c"]`,
and the empty string into `[""]`. -/
def splitCharsOn (sep : Char) : List Char → List Char → List String
  | [], acc => [String.mk acc.reverse]
  | c :: rest, acc =>
      if c = sep then String.mk acc.reverse :: splitCharsOn sep rest []
      else splitCharsOn sep rest (c :: acc)

/-- `key.split('_')`. -/
def pySplitUnderscore (s : String) : List String :=
  splitCharsOn '_' s.toList []

/-- Digit-sequence parse used by `pyInt`. -/
def parseNatCharsAux : List Char → Nat → Option Nat
  | [], acc => some acc
  | c :: rest, acc =>
      if c.isDigit then parseNatCharsAux rest (acc * 10 + (c.toNat - 48)) else none

/-- Python's `int(s)` on a plain optionally-signed digit string (the only
shapes the simulator's keys produce); anything else is a `ValueError`,
modelled as `none`. -/
def pyInt (s : String) : Option Int :=
  match s.toList with
  | [] => none
  | '-' :: rest =>
      if rest = [] then none
      else (parseNatCharsAux rest 0).map (fun n => -(n : Int))
  | cs => (parseNatCharsAux cs 0).map (fun n => (n : Int))

/-- The body of the `for key, callbacks in ...` loop of
`PocketOptionClient._candle_simulator` (pocket_option.py, lines 119-153)
for a single registry entry: skip if the callback list is empty, unpack
`asset, timeframe_str = key.split('_')` — a `ValueError` when the key does
not split into exactly two parts — convert the timeframe with `int(...)`,
and if the timeframe divides the current epoch second, synthesize one
candle around the asset's base price (defaulting a missing asset to 1.0),
update the base price to the close, and return the candle that is
dispatched to every callback of the pair.  An `Except.error` is an
uncaught exception, which kills the simulator task. -/
def simulate_key (now : Int) (base_prices : List (String × ℚ)) (draws : SimDraws)
    (key : String) (callbacks_count : Nat) :
    Except String (Option Candle × List (String × ℚ)) :=
  if callbacks_count = 0 then .ok (none, base_prices)
  else do
    let (asset, timeframe_str) ←
      match pySplitUnderscore key with
      | [a, t] => Except.ok (a, t)
      | _ => Except.error "ValueError: too many values to unpack"
    let timeframe ←
      match pyInt timeframe_str with
      | some n => Except.ok n
      | none => Except.error "ValueError: invalid literal for int()"
    if timeframe = 0 then .error "ZeroDivisionError: integer modulo by zero"
    else if now % timeframe = 0 then
      let base_prices :=
        if (base_prices.lookup asset).isNone then base_prices ++ [(asset, 1)] else base_prices
      let base_price := (base_prices.lookup asset).getD 1
      let close_price := base_price * (1 + draws.change)
      let open_price := base_price * (1 + draws.op_change)
      let high_price := max open_price close_price * (1 + draws.hi_change)
      let low_price := min open_price close_price * (1 - draws.lo_change)
      let candle : Candle :=
        { timestamp := now - timeframe
          op := round5 open_price
          high := round5 high_price
          low := round5 low_price
          close := round5 close_price
          volume := draws.volume
          asset := asset
          timeframe := timeframe }
      let base_prices := base_prices.map
        (fun p => if p.1 = asset then (asset, close_price) else p)
      .ok (some candle, base_prices)
    else .ok (none, base_prices)

/-- Stable insertion of a price into an ascending list (Python's stable
`levels.sort(key=lambda x: x["price"])`). -/
def insertAsc (x : ℚ) : List ℚ → List ℚ
  | [] => [x]
  | y :: ys => if x ≤ y then x :: y :: ys else y :: insertAsc x ys

/-- Ascending stable sort of the raw level prices. -/
def sortAsc (l : List ℚ) : List ℚ := l.foldr insertAsc []

/-- Stable insertion of a level into a list ascending by distance
(Python's stable `sorted(..., key=lambda x: x["distance"])`). -/
def insertByDistance (x : Level) : List Level → List Level
  | [] => [x]
  | y :: ys => if x.distance ≤ y.distance then x :: y :: ys else y :: insertByDistance x ys

/-- Stable sort of consolidated levels by distance. -/
def sortByDistance (l : List Level) : List Level := l.foldr insertByDistance []

/-- The inner `for c_level in consolidated` scan of `merge` in
`LevelAnalyzer._consolidate_levels` (levels.py): increment the touch count
of the first cluster within tolerance, or report `none` if no cluster
matches. -/
def merge_into (tol_abs : ℚ) (price : ℚ) : List Level → Option (List Level)
  | [] => none
  | l :: rest =>
      if |price - l.price| < tol_abs then some ({ l with touches := l.touches + 1 } :: rest)
      else (merge_into tol_abs price rest).map (fun r => l :: r)

/-- The `merge` closure of `LevelAnalyzer._consolidate_levels` (levels.py,
lines 45-62): sort the raw level prices ascending, then fold each into the
consolidated clusters, appending an unmerged price as a fresh cluster with
one touch and strength 0.6.  The distance field is not yet present at this
stage in the source (it is added afterwards); it is carried as 0 here. -/
def merge_levels (tol_abs : ℚ) (prices : List ℚ) : List Level :=
  (sortAsc prices).foldl
    (fun consolidated price =>
      match merge_into tol_abs price consolidated with
      | some updated => updated
      | none => consolidated ++ [⟨price, 1, 0.6, 0⟩])
    []

/-- `LevelAnalyzer._consolidate_levels` (levels.py, lines 42-79): merge
each side, annotate each cluster with its absolute distance to the current
price, and return the three nearest clusters per side. -/
def consolidate_levels (tolerance : ℚ) (resistance : List ℚ) (support : List ℚ)
    (current_price : ℚ) : Levels :=
  let tol_abs := tolerance * current_price
  let consolidated_resistance := (merge_levels tol_abs resistance).map
    (fun l => { l with distance := |l.price - current_price| })
  let consolidated_support := (merge_levels tol_abs support).map
    (fun l => { l with distance := |l.price - current_price| })
  ⟨(sortByDistance consolidated_support).take 3,
   (sortByDistance consolidated_resistance).take 3⟩

/-- `LevelAnalyzer.find_support_resistance` (levels.py, lines 10-40): with
fewer than `2*sensitivity + 1` candles no levels are reported; otherwise
an index `i` in `range(sensitivity, len - sensitivity)` is a resistance
when its high dominates every high within `sensitivity` on both sides, and
symmetrically for supports.  All accessed indices are in range, so the
`getD` defaults are never used. -/
def find_support_resistance (tolerance : ℚ) (candles : List Candle)
    (sensitivity : Nat) : Levels :=
  if candles.length < sensitivity * 2 + 1 then ⟨[], []⟩
  else
    let highs := candles.map Candle.high
    let lows := candles.map Candle.low
    let current_price := match candles with
      | c :: _ => c.close
      | [] => 1
    let idxs := List.range' sensitivity (candles.length - 2 * sensitivity)
    let window := List.range' 1 sensitivity
    let resistance := (idxs.filter (fun i =>
        window.all (fun j =>
          decide (highs.getD (i - j) 0 ≤ highs.getD i 0) &&
          decide (highs.getD (i + j) 0 ≤ highs.getD i 0)))).map
      (fun i => highs.getD i 0)
    let support := (idxs.filter (fun i =>
        window.all (fun j =>
          decide (lows.getD i 0 ≤ lows.getD (i - j) 0) &&
          decide (lows.getD i 0 ≤ lows.getD (i + j) 0)))).map
      (fun i => lows.getD i 0)
    consolidate_levels tolerance resistance support current_price

/-- One entry of `TradingBot.trade_history` (trading_bot.py).  The
`created_at` wall-clock string is outside the model. -/
structure TradeRecord where
  id : Int
  asset : String
  direction : String
  amount : ℚ
  confidence : ℚ
  outcome : String
  deriving Repr, DecidableEq

/-- `self.market_data[key]["candles"]` with a missing key reading as the
empty series. -/
def md_get (md : List (String × List Candle)) (key : String) : List Candle :=
  (md.lookup key).getD []

/-- Assignment `self.market_data[key] = ...` on the dict modelled as an
association list: a missing key is appended (Python dict insertion order),
an existing key has its value replaced. -/
def md_set (md : List (String × List Candle)) (key : String) (v : List Candle) :
    List (String × List Candle) :=
  if (md.lookup key).isNone then md ++ [(key, v)]
  else md.map (fun p => if p.1 = key then (key, v) else p)

/-- The mutable state of `TradingBot` touched by `handle_candle`
(trading_bot.py), together with the simulation gateway's balance and the
agent's training state. -/
structure BotState where
  market_data : List (String × List Candle)
  patterns_detected : List Pattern
  levels_detected : Levels
  indicator_values : Snapshot
  trade_history : List TradeRecord
  trades_this_hour : Nat
  agent : AgentState
  balance : ℚ
  current_asset : String
  current_timeframe : Int
  is_running : Bool
  is_trading : Bool
  min_confidence : ℚ

/-- The external effects consumed by one `handle_candle` run: the `ta`
backend availability and computations, the fitted-model prediction, the
retraining fit, and the simulated trade's win draw and identifier. -/
structure Env where
  ta_available : Bool
  ta : TABackend
  predict : List ℚ → Except String ℚ
  fit : Except String Unit
  is_win : Bool
  trade_id : Int

/-- `TradingBot.handle_candle` (trading_bot.py, lines 49-135) with the
gateway in simulation mode: store the candle under its
`asset_timeframe` key; only when the candle matches the active asset and
timeframe, recompute patterns, levels and indicators, and — only when
trading is enabled and the bot is running — ask the agent for a directive
and, if directional and confident enough, place the simulated trade,
record it, and feed the resolved outcome back into the agent (the source
computes an `entry_price` from the head candle that it never uses).  An
`Except.error` is an uncaught exception (possible only in the indicator
computation, which has no handler). -/
def handle_candle (env : Env) (s : BotState) (candle : Candle) : Except String BotState :=
  let asset := candle.asset
  let timeframe := candle.timeframe
  let key := asset ++ "_" ++ toString timeframe
  let stored := store_candle (md_get s.market_data key) candle
  let s1 := { s with market_data := md_set s.market_data key stored }
  if asset = s.current_asset ∧ timeframe = s.current_timeframe then do
    let candles_to_analyze := stored
    let patterns_detected := analyze_candles candles_to_analyze
    let levels_detected := find_support_resistance 0.0005 candles_to_analyze 3
    let indicator_values ← calculate_all env.ta_available env.ta candles_to_analyze
    let s2 := { s1 with patterns_detected := patterns_detected,
                        levels_detected := levels_detected,
                        indicator_values := indicator_values }
    if s2.is_trading ∧ s2.is_running then
      let context : Context := ⟨asset, timeframe, patterns_detected, levels_detected,
        indicator_values, s2.balance, candles_to_analyze⟩
      let trade_suggestion := get_trade_decision env.predict s2.agent.is_trained context
      let direction := trade_suggestion.direction
      let confidence := trade_suggestion.confidence
      if (direction = "CALL" ∨ direction = "PUT") ∧ confidence ≥ s2.min_confidence then
        let volatility_placeholder := match indicator_values.atr with
          | some a => a
          | none => 0.001
        let pattern_strength_placeholder := get_pattern_strength patterns_detected
        let expiration := determine_expiration volatility_placeholder
          pattern_strength_placeholder
        let amount := get_trade_amount s2.balance confidence 0.02
        let result := place_trade_sim s2.balance amount env.is_win
        let s3 := { s2 with balance := result.1,
                            trades_this_hour := s2.trades_this_hour + 1,
                            trade_history := s2.trade_history ++
                              [⟨env.trade_id, asset, direction, amount, confidence, result.2⟩] }
        if result.2 ≠ "PENDING" then
          let experience : Experience := ⟨extract_features context, result.2, confidence⟩
          let agent1 : AgentState :=
            ⟨s3.agent.is_trained, s3.agent.experience_buffer ++ [experience]⟩
          .ok { s3 with agent := retrain_if_needed env.fit agent1 }
        else .ok s3
      else .ok s2
    else .ok s2
  else .ok s1

/-! Auxiliary definitions for stating and witnessing the claims. -/

/-- Swap a candle's open and close prices, leaving everything else. -/
def swapOC (c : Candle) : Candle :=
  ⟨c.timestamp, c.close, c.high, c.low, c.op, c.volume, c.asset, c.timeframe⟩

/-- Exchange the CALL and PUT directions. -/
def mirrorSignal (s : String) : String :=
  if s = "CALL" then "PUT" else if s = "PUT" then "CALL" else s

/-- Exchange the bullish and bearish engulfing names. -/
def mirrorNameStr (n : String) : String :=
  if n = "bullish_engulfing" then "bearish_engulfing"
  else if n = "bearish_engulfing" then "bullish_engulfing"
  else n

/-- Mirror of a raw detection: engulfing detections flip name and
direction, dojis are fixed. -/
def mirrorDet (p : PatternDet) : PatternDet :=
  ⟨mirrorNameStr p.name, p.type, mirrorSignal p.signal, p.strength⟩

/-- Mirror of an analysis result entry. -/
def mirrorPattern (p : Pattern) : Pattern :=
  ⟨mirrorNameStr p.pattern, p.type, mirrorSignal p.signal, p.strength, p.timestamp⟩

/-- A flat unit candle at a given timestamp. -/
def candle_ts (ts : Int) : Candle := ⟨ts, 1, 1, 1, 1, 100, "EURUSD_otc", 60⟩

/-- A `ta` backend whose RSI computation raises. -/
def failTA : TABackend :=
  ⟨fun _ => .error "ta failure", fun _ => .ok (0, 0, 0), fun _ _ _ => .ok 0⟩

/-- Thirty flat candles. -/
def candles30 : List Candle :=
  (List.range 30).map (fun i => ⟨(i : Int), 1, 1, 1, 1, 100, "EURUSD_otc", 60⟩)

/-- Concrete random draws for one simulator tick. -/
def draws0 : SimDraws := ⟨0.0002, 0.00005, 0.0002, 0.0002, 500⟩

/-- A buffered winning experience with a feature vector. -/
def exp_win : Experience := ⟨some [1, 0.5], "WIN", 0.8⟩

/-- An untrained agent with exactly the 50-sample retraining threshold. -/
def agent50 : AgentState := ⟨false, List.replicate 50 exp_win⟩

/-- A decision context with the spec's scenario indicators (RSI 75
overbought, bullish MACD, ATR 0.0015) and no patterns. -/
def context_no_patterns : Context :=
  ⟨"EURUSD_otc", 60, [], ⟨[], []⟩,
   ⟨some ⟨75, "overbought"⟩, some ⟨0.001, 0.0007, 0.0003, "bullish"⟩, some 0.0015⟩,
   10000, [candle_ts 100]⟩

/-- An environment for a concrete `handle_candle` run. -/
def env0 : Env := ⟨true, failTA, fun _ => .ok 0.5, .ok (), true, 1234⟩

/-- A running, trading-enabled bot watching EURUSD_otc at 60 seconds. -/
def bot0 : BotState :=
  ⟨[], [], ⟨[], []⟩, Snapshot.empty, [], 0, ⟨false, []⟩, 10000,
   "EURUSD_otc", 60, true, true, 0.75⟩

/-- A candle for a pair other than the bot's active one. -/
def candle_other : Candle := ⟨100, 1, 1, 1, 1, 100, "GBPUSD_otc", 60⟩

/-! Theorems settling the claims. -/

/-- C7: for every balance greater than 20 and every confidence,
`get_trade_amount(balance, confidence)` (with the default
`base_pct = 0.02`) lies in `[1, balance*0.05]` and equals
`clamp(1, balance*0.05, balance*pct)` with `pct` 0.01 below confidence
0.65, 0.02 below 0.75 and 0.03 otherwise. -/
theorem C7_trade_amount_bounds (balance confidence : ℚ) (h : balance > 20) :
    1 ≤ get_trade_amount balance confidence 0.02 ∧
    get_trade_amount balance confidence 0.02 ≤ balance * 0.05 ∧
    get_trade_amount balance confidence 0.02 =
      max 1 (min (balance * (if confidence < 0.65 then 0.01
        else if confidence < 0.75 then 0.02 else 0.03)) (balance * 0.05)) := by
  have hcap : (1 : ℚ) ≤ balance * 0.05 := by nlinarith
  refine ⟨le_max_left _ _, max_le hcap (min_le_right _ _), ?_⟩
  unfold get_trade_amount
  split_ifs <;> norm_num

/-- Witness for C7 at the spec's scenario: balance 1000 at confidence 0.8
is within bounds and stakes exactly 30. -/
theorem C7_trade_amount_bounds_witness :
    (1 ≤ get_trade_amount 1000 0.8 0.02 ∧
      get_trade_amount 1000 0.8 0.02 ≤ 1000 * 0.05 ∧
      get_trade_amount 1000 0.8 0.02 =
        max 1 (min (1000 * (if (0.8 : ℚ) < 0.65 then 0.01
          else if (0.8 : ℚ) < 0.75 then 0.02 else 0.03)) (1000 * 0.05))) ∧
    get_trade_amount 1000 0.8 0.02 = 30 :=
  ⟨C7_trade_amount_bounds 1000 0.8 (by norm_num),
   by norm_num [get_trade_amount]⟩

/-- C9: a simulated `place_trade` always resolves to WIN or LOSS (never
PENDING or FAILED), moving the balance by `+0.85*amount` on a WIN and by
`-amount` on a LOSS. -/
theorem C9_simulated_trade_resolved (balance amount : ℚ) (is_win : Bool) :
    (((place_trade_sim balance amount is_win).2 = "WIN" ∧
        (place_trade_sim balance amount is_win).1 = balance + 0.85 * amount) ∨
      ((place_trade_sim balance amount is_win).2 = "LOSS" ∧
        (place_trade_sim balance amount is_win).1 = balance - amount)) ∧
    (place_trade_sim balance amount is_win).2 ≠ "PENDING" ∧
    (place_trade_sim balance amount is_win).2 ≠ "FAILED" := by
  cases is_win with
  | false => exact ⟨Or.inr ⟨rfl, rfl⟩, by simp [place_trade_sim], by simp [place_trade_sim]⟩
  | true =>
      refine ⟨Or.inl ⟨rfl, ?_⟩, by simp [place_trade_sim], by simp [place_trade_sim]⟩
      show balance - amount + amount + amount * 0.85 = balance + 0.85 * amount
      ring

/-- Witness for C9 at a concrete winning trade of 10 from balance 100. -/
theorem C9_simulated_trade_resolved_witness :
    (((place_trade_sim 100 10 true).2 = "WIN" ∧
        (place_trade_sim 100 10 true).1 = 100 + 0.85 * 10) ∨
      ((place_trade_sim 100 10 true).2 = "LOSS" ∧
        (place_trade_sim 100 10 true).1 = 100 - 10)) ∧
    (place_trade_sim 100 10 true).2 ≠ "PENDING" ∧
    (place_trade_sim 100 10 true).2 ≠ "FAILED" :=
  C9_simulated_trade_resolved 100 10 true

/-- C2 (code bug): the simulator loop body raises a `ValueError` while
unpacking `asset, timeframe_str = key.split('_')` for the default
subscription key `"EURUSD_otc_60"` — the asset name itself contains an
underscore, so the split has three parts — hence no candle is synthesized
or dispatched and the uncaught exception kills the generation task. -/
theorem C2_simulator_underscore_asset_raises :
    simulate_key 60 [("EURUSD_otc", 1)] draws0 "EURUSD_otc_60" 1 =
      .error "ValueError: too many values to unpack" := rfl

/-- C1 counterexample: with 30 candles, the `ta` backend available but its
RSI computation failing, `calculate_all` propagates the exception instead
of returning the empty snapshot. -/
theorem C1_calculate_all_counterexample :
    calculate_all true failTA candles30 = .error "ta failure" := rfl

/-- C1 (amended): `calculate_all` returns the empty snapshot when the
candle list has fewer than 30 entries or the backend is unavailable; with
30 or more candles and the backend available, a computation failure
propagates to the caller (there is no exception handler). -/
theorem C1_calculate_all_amended (ta_available : Bool) (ta : TABackend)
    (candles : List Candle) :
    ((candles.length < 30 ∨ ta_available = false) →
      calculate_all ta_available ta candles = .ok Snapshot.empty) ∧
    (30 ≤ candles.length → ta_available = true →
      ∀ e, ta.rsi (candles.reverse.map Candle.close) = .error e →
        calculate_all ta_available ta candles = .error e) := by
  constructor
  · intro h
    unfold calculate_all
    rw [if_pos h]
  · intro h30 hta e herr
    unfold calculate_all
    rw [if_neg]
    · dsimp only
      rw [herr]
      rfl
    · rintro (hlt | hfalse)
      · exact absurd hlt (not_lt.mpr h30)
      · rw [hta] at hfalse
        cases hfalse

/-- Witness for C1 (amended): the guard case on the empty list, and the
propagation case on thirty candles with a failing backend. -/
theorem C1_calculate_all_amended_witness :
    calculate_all true failTA [] = .ok Snapshot.empty ∧
    calculate_all true failTA candles30 = .error "ta failure" :=
  ⟨(C1_calculate_all_amended true failTA []).1 (Or.inl (by norm_num)),
   (C1_calculate_all_amended true failTA candles30).2 (by decide) rfl
     "ta failure" rfl⟩

/-- C6: for any prediction oracle, any trained/untrained flag and any
decision context, the confidence returned by `get_trade_decision` lies in
the closed interval [0.5, 0.95]. -/
theorem C6_confidence_in_bounds (predict : List ℚ → Except String ℚ) (is_trained : Bool)
    (context : Context) :
    0.5 ≤ (get_trade_decision predict is_trained context).confidence ∧
    (get_trade_decision predict is_trained context).confidence ≤ 0.95 := by
  unfold get_trade_decision
  dsimp only
  split <;> exact ⟨le_max_left _ _, max_le (by norm_num) (min_le_right _ _)⟩

/-- C5: whenever the context carries no patterns, `get_trade_decision`
returns HOLD at confidence exactly 0.5, for every indicator state (RSI can
contribute at most 0.5, which does not exceed the 0.5 threshold), every
prediction oracle and every trained/untrained flag. -/
theorem C5_no_patterns_holds (predict : List ℚ → Except String ℚ) (is_trained : Bool)
    (context : Context) (h : context.patterns = []) :
    get_trade_decision predict is_trained context = ⟨"HOLD", 0.5⟩ := by
  have hsum : (heuristic_score context).1 + (heuristic_score context).2 ≤ 0.5 := by
    unfold heuristic_score
    rw [h]
    cases hr : context.indicators.rsi with
    | none => norm_num
    | some r =>
        dsimp only
        split_ifs <;> norm_num
  unfold get_trade_decision
  dsimp only
  rw [if_neg (not_lt.mpr hsum)]
  norm_num

/-- Witness for C5 at the spec's scenario context (overbought RSI, bullish
MACD, no patterns) with a trained classifier reporting certainty. -/
theorem C5_no_patterns_holds_witness :
    get_trade_decision (fun _ => .ok 0.99) true context_no_patterns = ⟨"HOLD", 0.5⟩ :=
  C5_no_patterns_holds (fun _ => .ok 0.99) true context_no_patterns rfl

/-- C3 counterexample: the stored series is not always newest-first under
arbitrary arrival order — a candle older than the current head (timestamp
50 after 100) is still prepended, leaving the head older than its
successor. -/
theorem C3_store_candle_counterexample :
    ¬ newestFirst (store_candle (store_candle [] (candle_ts 100)) (candle_ts 50)) := by
  have hval : store_candle (store_candle [] (candle_ts 100)) (candle_ts 50) =
      [candle_ts 50, candle_ts 100] := rfl
  intro hchain
  rw [hval] at hchain
  unfold newestFirst at hchain
  rw [List.chain'_cons] at hchain
  have h1 := hchain.1
  norm_num [candle_ts] at h1

/-- C3 (amended): the stored series never exceeds 200 candles; a candle
whose timestamp equals the current head's replaces the head in place; and
when arrivals are in order — each new candle at least as recent as
everything stored — the series stays ordered newest-first. -/
theorem C3_store_candle_amended (series : List Candle) (candle : Candle) :
    (store_candle series candle).length ≤ 200 ∧
    (newestFirst series → (∀ d ∈ series, d.timestamp ≤ candle.timestamp) →
      newestFirst (store_candle series candle)) ∧
    (∀ head tail, series = head :: tail → head.timestamp = candle.timestamp →
      store_candle series candle = (candle :: tail).take 200) := by
  refine ⟨?_, ?_, ?_⟩
  · unfold store_candle
    exact List.length_take_le 200 _
  · intro hsorted hle
    unfold store_candle
    cases series with
    | nil =>
        apply List.Chain'.take
        simp [newestFirst]
    | cons head tail =>
        dsimp only
        split_ifs with hts
        · apply List.Chain'.take
          unfold newestFirst at hsorted
          cases tail with
          | nil => simp
          | cons b bt =>
              rw [List.chain'_cons] at hsorted
              rw [List.chain'_cons]
              exact ⟨by rw [← hts]; exact hsorted.1, hsorted.2⟩
        · apply List.Chain'.take
          unfold newestFirst at hsorted
          rw [List.chain'_cons]
          exact ⟨hle head (by simp), hsorted⟩
  · intro head tail hs hts
    subst hs
    unfold store_candle
    dsimp only
    rw [if_pos hts]

/-- Witness for C3 (amended): an in-order arrival keeps the series
newest-first, and an equal-timestamp arrival replaces the head. -/
theorem C3_store_candle_amended_witness :
    newestFirst (store_candle [candle_ts 100] (candle_ts 200)) ∧
    store_candle [candle_ts 100] (candle_ts 100) = (candle_ts 100 :: []).take 200 :=
  ⟨(C3_store_candle_amended [candle_ts 100] (candle_ts 200)).2.1
      (by simp [newestFirst])
      (by rintro d hd; rw [List.mem_singleton] at hd; subst hd; norm_num [candle_ts]),
   (C3_store_candle_amended [candle_ts 100] (candle_ts 100)).2.2 (candle_ts 100) [] rfl rfl⟩

/-- The feature and label lists built by `retrain_if_needed` always have
the same length: both are drawn from the experiences whose features are
truthy. -/
theorem features_length_aux (l : List Experience) :
    ((l.filter featTruthy).filterMap Experience.features).length =
      (l.filter featTruthy).length := by
  induction l with
  | nil => rfl
  | cons e rest ih =>
      by_cases he : featTruthy e = true
      · rw [List.filter_cons_of_pos he]
        cases hf : e.features with
        | some f => simp only [List.filterMap_cons, hf, List.length_cons, ih]
        | none => exact absurd he (by simp [featTruthy, hf])
      · rw [List.filter_cons_of_neg (by simpa using he)]
        exact ih

/-- C4: `retrain_if_needed` clears the experience buffer exactly when the
fit succeeds — any run either leaves the agent state untouched or (only
when the fit returned successfully) sets `is_trained` and empties the
buffer; below 50 samples, on an abort for missing feature data, or on a
raised exception the state is untouched; with enough samples, usable
features and a successful fit the buffer is cleared and `is_trained`
set. -/
theorem C4_retrain_clears_iff_fit (fit : Except String Unit) (s : AgentState) :
    (retrain_if_needed fit s = s ∨
      (fit = .ok () ∧ retrain_if_needed fit s = ⟨true, []⟩)) ∧
    (s.experience_buffer.length < 50 → retrain_if_needed fit s = s) ∧
    ((s.experience_buffer.filter featTruthy).filterMap Experience.features = [] →
      retrain_if_needed fit s = s) ∧
    (∀ e, fit = .error e → retrain_if_needed fit s = s) ∧
    (50 ≤ s.experience_buffer.length →
      (s.experience_buffer.filter featTruthy).filterMap Experience.features ≠ [] →
      fit = .ok () → retrain_if_needed fit s = ⟨true, []⟩) := by
  have hYlen : ((s.experience_buffer.filter featTruthy).filterMap Experience.features).length =
      ((s.experience_buffer.filter featTruthy).map
        (fun e => if e.outcome = "WIN" then (1 : Nat) else 0)).length := by
    rw [List.length_map]
    exact features_length_aux s.experience_buffer
  unfold retrain_if_needed
  by_cases hlen : s.experience_buffer.length < 50
  · rw [if_pos hlen]
    exact ⟨Or.inl rfl, fun _ => rfl, fun _ => rfl, fun _ _ => rfl,
      fun h50 => absurd hlen (not_lt.mpr h50)⟩
  · rw [if_neg hlen]
    dsimp only
    by_cases hX : (s.experience_buffer.filter featTruthy).filterMap Experience.features = []
    · rw [if_pos (Or.inl hX)]
      exact ⟨Or.inl rfl, fun h => absurd h hlen, fun _ => rfl, fun _ _ => rfl,
        fun _ hX2 _ => absurd hX hX2⟩
    · rw [if_neg (by
        rintro (h | h)
        · exact hX h
        · exact h hYlen)]
      cases fit with
      | ok u =>
          exact ⟨Or.inr ⟨rfl, rfl⟩, fun h => absurd h hlen, fun h => absurd h hX,
            fun e he => Except.noConfusion he, fun _ _ _ => rfl⟩
      | error e =>
          exact ⟨Or.inl rfl, fun h => absurd h hlen, fun h => absurd h hX,
            fun _ _ => rfl, fun _ _ h => Except.noConfusion h⟩

/-- Witness for C4: at the 50-sample threshold a successful fit trains the
agent and empties the buffer, a failing fit leaves the state untouched,
and an empty buffer is a no-op. -/
theorem C4_retrain_clears_iff_fit_witness :
    retrain_if_needed (.ok ()) agent50 = ⟨true, []⟩ ∧
    retrain_if_needed (.error "fit failed") agent50 = agent50 ∧
    retrain_if_needed (.ok ()) ⟨false, []⟩ = ⟨false, []⟩ :=
  ⟨(C4_retrain_clears_iff_fit (.ok ()) agent50).2.2.2.2 (by decide) (by decide) rfl,
   (C4_retrain_clears_iff_fit (.error "fit failed") agent50).2.2.2.1 "fit failed" rfl,
   (C4_retrain_clears_iff_fit (.ok ()) ⟨false, []⟩).2.1 (by decide)⟩

/-- C10: a candle for a pair other than the active (asset, timeframe)
only updates the market-data entry under its own key — patterns, levels,
indicators, trade history, trade counter, agent state (including the
experience buffer) and balance are untouched, and no trade is placed —
regardless of the running/trading flags and of every external oracle. -/
theorem C10_inactive_candle_frame (env : Env) (s : BotState) (candle : Candle)
    (h : candle.asset ≠ s.current_asset ∨ candle.timeframe ≠ s.current_timeframe) :
    handle_candle env s candle =
      .ok { s with
            market_data :=
              md_set s.market_data (candle.asset ++ "_" ++ toString candle.timeframe)
                (store_candle
                  (md_get s.market_data
                    (candle.asset ++ "_" ++ toString candle.timeframe))
                  candle) } := by
  unfold handle_candle
  rw [if_neg]
  rintro ⟨h1, h2⟩
  rcases h with h | h <;> contradiction

/-- Witness for C10: a GBPUSD_otc candle arriving while EURUSD_otc at 60
seconds is active only creates that candle's market-data entry. -/
theorem C10_inactive_candle_frame_witness :
    handle_candle env0 bot0 candle_other =
      .ok { bot0 with
            market_data :=
              md_set bot0.market_data
                (candle_other.asset ++ "_" ++ toString candle_other.timeframe)
                (store_candle
                  (md_get bot0.market_data
                    (candle_other.asset ++ "_" ++ toString candle_other.timeframe))
                  candle_other) } :=
  C10_inactive_candle_frame env0 bot0 candle_other (Or.inl (by decide))

/-- Two-candle detection is direction-symmetric: swapping both candles'
open/close turns each engulfing detection into its mirror (bullish CALL ↔
bearish PUT, same strength) and leaves dojis unchanged. -/
theorem detect_patterns_swap (c1 c2 : Candle) :
    detect_patterns (swapOC c1) (swapOC c2) = (detect_patterns c1 c2).map mirrorDet := by
  unfold detect_patterns swapOC
  dsimp only
  simp only [gt_iff_lt, abs_sub_comm c1.op c1.close, abs_sub_comm c2.op c2.close]
  by_cases hA : c2.close < c2.op ∧ c1.op < c1.close ∧
      1.2 * |c2.close - c2.op| < |c1.close - c1.op| ∧ c1.op < c2.close ∧ c2.op < c1.close
  · have hnA1 : ¬(c2.op < c2.close ∧ c1.close < c1.op ∧
        1.2 * |c2.close - c2.op| < |c1.close - c1.op| ∧ c1.close < c2.op ∧ c2.close < c1.op) :=
      fun hB => absurd hA.2.1 (lt_asymm hB.2.1)
    have hB2 : c2.close < c2.op ∧ c1.op < c1.close ∧
        1.2 * |c2.close - c2.op| < |c1.close - c1.op| ∧ c2.op < c1.close ∧ c1.op < c2.close :=
      ⟨hA.1, hA.2.1, hA.2.2.1, hA.2.2.2.2, hA.2.2.2.1⟩
    rw [if_neg hnA1, if_pos hB2, if_pos hA]
    by_cases hD : |c1.close - c1.op| < 0.1 * (c1.high - c1.low) ∧ 0.0001 < c1.high - c1.low
    · rw [if_pos hD]
      rfl
    · rw [if_neg hD]
      rfl
  · by_cases hB : c2.op < c2.close ∧ c1.close < c1.op ∧
        1.2 * |c2.close - c2.op| < |c1.close - c1.op| ∧ c2.close < c1.op ∧ c1.close < c2.op
    · have hA2 : c2.op < c2.close ∧ c1.close < c1.op ∧
          1.2 * |c2.close - c2.op| < |c1.close - c1.op| ∧ c1.close < c2.op ∧ c2.close < c1.op :=
        ⟨hB.1, hB.2.1, hB.2.2.1, hB.2.2.2.2, hB.2.2.2.1⟩
      rw [if_pos hA2, if_neg hA, if_pos hB]
      by_cases hD : |c1.close - c1.op| < 0.1 * (c1.high - c1.low) ∧ 0.0001 < c1.high - c1.low
      · rw [if_pos hD]
        rfl
      · rw [if_neg hD]
        rfl
    · have hnA1 : ¬(c2.op < c2.close ∧ c1.close < c1.op ∧
          1.2 * |c2.close - c2.op| < |c1.close - c1.op| ∧ c1.close < c2.op ∧ c2.close < c1.op) :=
        fun h => hB ⟨h.1, h.2.1, h.2.2.1, h.2.2.2.2, h.2.2.2.1⟩
      have hnB1 : ¬(c2.close < c2.op ∧ c1.op < c1.close ∧
          1.2 * |c2.close - c2.op| < |c1.close - c1.op| ∧ c2.op < c1.close ∧ c1.op < c2.close) :=
        fun h => hA ⟨h.1, h.2.1, h.2.2.1, h.2.2.2.2, h.2.2.2.1⟩
      rw [if_neg hnA1, if_neg hnB1, if_neg hA, if_neg hB]
      by_cases hD : |c1.close - c1.op| < 0.1 * (c1.high - c1.low) ∧ 0.0001 < c1.high - c1.low
      · rw [if_pos hD]
        rfl
      · rw [if_neg hD]
        rfl

/-- C8: engulfing detection is direction-symmetric — analyzing the list
with every candle's open and close swapped yields the same detections with
CALL and PUT exchanged (bullish_engulfing/CALL ↔ bearish_engulfing/PUT at
the same position with the same strength 0.85) and doji detections
unchanged. -/
theorem C8_engulfing_symmetry (candles : List Candle) :
    analyze_candles (candles.map swapOC) = (analyze_candles candles).map mirrorPattern := by
  unfold analyze_candles
  rw [List.length_map]
  split_ifs with h
  · rfl
  · rw [List.map_flatMap]
    apply List.flatMap_congr
    intro i _
    rw [← List.map_drop]
    cases hdrop : candles.drop i with
    | nil => rfl
    | cons a t =>
        cases t with
        | nil => rfl
        | cons b t2 =>
            dsimp only [List.map]
            rw [detect_patterns_swap, List.map_map, List.map_map]
            rfl
